import Mathlib

/-!
Shallow embedding of the SoftwareSalesManager entitlement core:
the drizzle schema (src/shared/schema.ts), the storage layer
(class DatabaseStorage) and the Express route handlers
(src/server/routes.ts), together with theorems checking the
natural-language specification against this embedding.

Dates and timestamps are modelled as integers (days since an arbitrary
epoch); day arithmetic from date-fns becomes integer addition.
Monetary amounts are integers (cents).  Each fallible persistence call
that a route observes is modelled by an explicit failure flag where a
claim depends on it.

Definitions come first, theorems follow.
-/

namespace SSM

/-- User roles, from the role enum in src/shared/schema.ts. -/
inductive Role where
  | admin
  | sales
  | support
  | client
deriving DecidableEq, Repr

/-- License status values, from the license status enum in
src/shared/schema.ts. -/
inductive LicenseStatus where
  | active
  | expired
  | pending
  | revoked
deriving DecidableEq, Repr

/-- Transaction status values, from the transaction status enum in
src/shared/schema.ts. -/
inductive TransactionStatus where
  | pending
  | completed
  | refunded
  | failed
deriving DecidableEq, Repr

/-- Ticket status values, from the ticket status enum in
src/shared/schema.ts. -/
inductive TicketStatus where
  | new
  | inProgress
  | resolved
  | closed
deriving DecidableEq, Repr

/-- Subscription billing periods, from the subscription type enum in
src/shared/schema.ts. -/
inductive SubscriptionType where
  | monthly
  | quarterly
  | yearly
deriving DecidableEq, Repr

/-- One row of the clients table (the columns the entitlement core
reads). -/
structure Client where
  id : Nat
  userId : Nat
  companyName : String
deriving DecidableEq, Repr

/-- One row of the subscriptions table (the columns the entitlement
core reads). -/
structure Subscription where
  id : Nat
  clientId : Nat
  productId : Nat
  subscriptionType : SubscriptionType
deriving DecidableEq, Repr

/-- One row of the licenses table (the columns the entitlement core
reads). -/
structure License where
  id : Nat
  subscriptionId : Nat
  licenseKey : String
  status : LicenseStatus
  activationDate : Int
  expirationDate : Int
  notificationsSent : Nat
deriving DecidableEq, Repr

/-- One row of the invoices table (the columns the entitlement core
reads). -/
structure Invoice where
  id : Nat
  clientId : Nat
  subscriptionId : Option Nat
  invoiceNumber : String
  isPaid : Bool
deriving DecidableEq, Repr

/-- One row of the transactions table (the columns the entitlement
core reads). -/
structure Transaction where
  id : Nat
  clientId : Nat
  invoiceId : Option Nat
  amount : Int
  status : TransactionStatus
  transactionDate : Int
deriving DecidableEq, Repr

/-- One row of the tickets table (the columns the dashboard reads). -/
structure Ticket where
  id : Nat
  clientId : Nat
  status : TicketStatus
deriving DecidableEq, Repr

/-- The relational store the storage layer queries and updates. -/
structure Store where
  clients : List Client
  subscriptions : List Subscription
  licenses : List License
  invoices : List Invoice
  transactions : List Transaction
  tickets : List Ticket
deriving DecidableEq, Repr

/-- Results of a route handler, by HTTP status class:
`ok` carries the JSON body, `forbidden` is 403, `notFound` is 404, and
`serverError` is the catch-all 500. -/
inductive ApiResult (α : Type) where
  | ok (body : α)
  | forbidden
  | notFound
  | serverError
deriving DecidableEq, Repr

/-- The isSales middleware of src/server/routes.ts: it admits
authenticated callers whose role is `sales` or `admin` and responds
403 to everyone else. -/
def isSalesGate (r : Role) : Bool :=
  decide (r = Role.sales) || decide (r = Role.admin)

/-- A parsed partial license payload (insertLicenseSchema.partial()):
each updatable column of the licenses table optionally present; the id
is never part of the insert schema. -/
structure LicensePatch where
  subscriptionId : Option Nat := none
  licenseKey : Option String := none
  status : Option LicenseStatus := none
  activationDate : Option Int := none
  expirationDate : Option Int := none
  notificationsSent : Option Nat := none
deriving DecidableEq, Repr

/-- Effect of the drizzle set-with-spread call on one license row:
every column present in the partial payload is overwritten, the rest
keep their values. -/
def applyPatch (p : LicensePatch) (l : License) : License :=
  { l with
    subscriptionId := p.subscriptionId.getD l.subscriptionId
    licenseKey := p.licenseKey.getD l.licenseKey
    status := p.status.getD l.status
    activationDate := p.activationDate.getD l.activationDate
    expirationDate := p.expirationDate.getD l.expirationDate
    notificationsSent := p.notificationsSent.getD l.notificationsSent }

/-- The updateLicense method of DatabaseStorage: update the row whose
id matches, returning the updated row (`none` when no row matched). -/
def updateLicense (id : Nat) (p : LicensePatch) (s : Store) :
    Option License × Store :=
  match s.licenses.find? (fun x => decide (x.id = id)) with
  | none => (none, s)
  | some l =>
      let l2 := applyPatch p l
      (some l2,
        { s with licenses :=
            s.licenses.map (fun x => if x.id = id then applyPatch p x else x) })

/-- The PATCH /api/licenses/:id handler: isSales gate, then
updateLicense, 404 when the license does not exist. -/
def patchLicense (role : Role) (id : Nat) (p : LicensePatch) (s : Store) :
    ApiResult License × Store :=
  if isSalesGate role = false then (ApiResult.forbidden, s)
  else
    match updateLicense id p s with
    | (none, s2) => (ApiResult.notFound, s2)
    | (some l, s2) => (ApiResult.ok l, s2)

/-- A patch carrying only a new status, as sent by a status-changing
PATCH request. -/
def statusPatch (v : LicenseStatus) : LicensePatch :=
  { status := some v }

/-- A store with a single revoked license, used to exercise the license
routes at a concrete input. -/
def storeRevoked : Store :=
  { clients := []
    subscriptions := [{ id := 1, clientId := 1, productId := 1,
                        subscriptionType := SubscriptionType.monthly }]
    licenses := [{ id := 7, subscriptionId := 1, licenseKey := "LIC-AAAA-20240101",
                   status := LicenseStatus.revoked, activationDate := 0,
                   expirationDate := 100, notificationsSent := 2 }]
    invoices := []
    transactions := []
    tickets := [] }

/-- The getExpiringLicenses method of DatabaseStorage: active licenses
whose expiration date is strictly before the query time plus the day
threshold. -/
def getExpiringLicenses (now n : Int) (s : Store) : List License :=
  s.licenses.filter
    (fun l => decide (l.status = LicenseStatus.active) && decide (l.expirationDate < now + n))

/-- Days until a license expires, as the expiring-licenses route
computes it with differenceInDays (negative once the date has
passed). -/
def daysUntilExpiration (now : Int) (l : License) : Int :=
  l.expirationDate - now

/-- An active license whose expiration date is already ten days in the
past relative to the query time used in the theorems below. -/
def licPast : License :=
  { id := 3, subscriptionId := 1, licenseKey := "LIC-BBBB-20240101",
    status := LicenseStatus.active, activationDate := 0,
    expirationDate := 10, notificationsSent := 0 }

/-- A store holding only `licPast`. -/
def storePast : Store :=
  { clients := []
    subscriptions := [{ id := 1, clientId := 1, productId := 1,
                        subscriptionType := SubscriptionType.monthly }]
    licenses := [licPast]
    invoices := []
    transactions := []
    tickets := [] }

/-- The getExpiringLicenses call as a store operation: a SELECT,
returning the rows and the store it received. -/
def getExpiringLicensesOp (now n : Int) : Store → List License × Store :=
  fun s => (getExpiringLicenses now n s, s)

/-- The alert record built by GET /api/dashboard/expiring-licenses for
each expiring license. -/
structure AlertRecord where
  id : Nat
  licenseKey : String
  expirationDate : Int
  expiresIn : Int
  company : String
  clientId : Nat
  subscriptionId : Nat
deriving DecidableEq, Repr

/-- The GET /api/dashboard/expiring-licenses handler: query the
expiring licenses with threshold 14, then look up each license's
subscription and client to assemble the alert payload; every storage
call involved is a read. -/
def expiringLicensesRoute (now : Int) (s : Store) :
    ApiResult (List AlertRecord) × Store :=
  let ls := getExpiringLicenses now 14 s
  (ApiResult.ok (ls.map (fun l =>
      let sub := s.subscriptions.find? (fun x => decide (x.id = l.subscriptionId))
      let c := sub.bind (fun sb => s.clients.find? (fun x => decide (x.id = sb.clientId)))
      { id := l.id
        licenseKey := l.licenseKey
        expirationDate := l.expirationDate
        expiresIn := daysUntilExpiration now l
        company := (c.map (fun x => x.companyName)).getD "Unknown"
        clientId := (c.map (fun x => x.id)).getD 0
        subscriptionId := (sub.map (fun x => x.id)).getD 0 })),
    s)

/-- A store with one revoked license (id 7) and one active license
(id 8) under a monthly subscription, used to exercise the PATCH
route. -/
def storeTwoLicenses : Store :=
  { clients := []
    subscriptions := [{ id := 1, clientId := 1, productId := 1,
                        subscriptionType := SubscriptionType.monthly }]
    licenses :=
      [{ id := 7, subscriptionId := 1, licenseKey := "LIC-AAAA-20240101",
         status := LicenseStatus.revoked, activationDate := 0,
         expirationDate := 100, notificationsSent := 2 },
       { id := 8, subscriptionId := 1, licenseKey := "LIC-CCCC-20240101",
         status := LicenseStatus.active, activationDate := 0,
         expirationDate := 100, notificationsSent := 5 }]
    invoices := []
    transactions := []
    tickets := [] }

/-- Two-digit zero padding used by the yyyyMMdd date stamp. -/
def pad2 (n : Nat) : String :=
  if n < 10 then "0" ++ toString n else toString n

/-- The yyyyMMdd date stamp of the current date. -/
def dateStamp (y m d : Nat) : String :=
  toString y ++ pad2 m ++ pad2 d

/-- The token part of a generated key: the fresh UUID with its dashes
removed, truncated to its first 16 characters, uppercased. -/
def licenseToken (uuid : String) : String :=
  String.mk (((uuid.data.filter (fun c => decide (c ≠ '-'))).take 16).map Char.toUpper)

/-- The generateLicenseKey method of DatabaseStorage, with the fresh
UUID and the current date passed in explicitly. -/
def generateLicenseKey (uuid : String) (y m d : Nat) : String :=
  "LIC" ++ "-" ++ licenseToken uuid ++ "-" ++ dateStamp y m d

/-- Formalisation of the claim's entropy contract on a key: it splits
as PREFIX-TOKEN-DATESTAMP with a token of at least 128 bits encoded at
4 bits per character, i.e. at least 32 characters. -/
def specLicenseKeyForm (key : String) (y m d : Nat) : Prop :=
  ∃ token : String,
    key = "LIC" ++ "-" ++ token ++ "-" ++ dateStamp y m d ∧ 32 ≤ token.length

/-- A parsed transaction creation payload (insertTransactionSchema):
`status` and `transactionDate` have column defaults, so drizzle-zod
makes them optional. -/
structure TxInsert where
  clientId : Nat
  invoiceId : Option Nat := none
  amount : Int
  status : Option TransactionStatus := none
  transactionDate : Option Int := none
deriving DecidableEq, Repr

/-- The row produced by inserting a transaction payload: the serial id
and the column defaults (status pending, transaction date now) fill
the omitted fields. -/
def transactionFromInsert (nid : Nat) (now : Int) (t : TxInsert) : Transaction :=
  { id := nid
    clientId := t.clientId
    invoiceId := t.invoiceId
    amount := t.amount
    status := t.status.getD TransactionStatus.pending
    transactionDate := t.transactionDate.getD now }

/-- Effect of the drizzle update setting isPaid to true on one invoice
row. -/
def setPaid (inv : Invoice) : Invoice :=
  { inv with isPaid := true }

/-- The updateInvoice call the transaction route issues with an
isPaid-only payload: update the row whose id matches, returning the
updated row or `none`. -/
def updateInvoicePaid (iid : Nat) (s : Store) : Option Invoice × Store :=
  match s.invoices.find? (fun x => decide (x.id = iid)) with
  | none => (none, s)
  | some inv =>
      (some (setPaid inv),
        { s with invoices := s.invoices.map (fun x => if x.id = iid then setPaid x else x) })

/-- The POST /api/transactions handler: isSales gate, insert the
transaction, then — when the new transaction carries a truthy
invoiceId — a second, separate updateInvoice write marking the invoice
paid.  `invoiceUpdateThrows` models the persistence layer failing on
that second write: the route's catch answers 500, but the
already-inserted transaction stays, as there is no enclosing database
transaction to roll it back. -/
def postTransaction (role : Role) (nid : Nat) (now : Int) (t : TxInsert)
    (invoiceUpdateThrows : Bool) (s : Store) : ApiResult Transaction × Store :=
  if isSalesGate role = false then (ApiResult.forbidden, s)
  else
    let tx := transactionFromInsert nid now t
    let s1 : Store := { s with transactions := s.transactions ++ [tx] }
    match t.invoiceId with
    | none => (ApiResult.ok tx, s1)
    | some iid =>
        if iid = 0 then (ApiResult.ok tx, s1)
        else if invoiceUpdateThrows then (ApiResult.serverError, s1)
        else (ApiResult.ok tx, (updateInvoicePaid iid s1).2)

/-- A store with a single unpaid invoice, for exercising the
transaction route at a concrete input. -/
def storeInvoice : Store :=
  { clients := [{ id := 1, userId := 10, companyName := "Alpha" }]
    subscriptions := []
    licenses := []
    invoices := [{ id := 1, clientId := 1, subscriptionId := none,
                   invoiceNumber := "INV-2026-00001", isPaid := false }]
    transactions := []
    tickets := [] }

/-- The GET /api/subscriptions/:id handler: 404 when absent; for a
client-role caller, 403 unless the caller's client record owns the
subscription. -/
def getSubscriptionByIdRoute (role : Role) (uid : Nat) (id : Nat) (s : Store) :
    ApiResult Subscription :=
  match s.subscriptions.find? (fun x => decide (x.id = id)) with
  | none => ApiResult.notFound
  | some sub =>
      if role = Role.client then
        match s.clients.find? (fun x => decide (x.userId = uid)) with
        | none => ApiResult.forbidden
        | some c => if c.id = sub.clientId then ApiResult.ok sub else ApiResult.forbidden
      else ApiResult.ok sub

/-- The GET /api/invoices/:id handler. -/
def getInvoiceByIdRoute (role : Role) (uid : Nat) (id : Nat) (s : Store) :
    ApiResult Invoice :=
  match s.invoices.find? (fun x => decide (x.id = id)) with
  | none => ApiResult.notFound
  | some inv =>
      if role = Role.client then
        match s.clients.find? (fun x => decide (x.userId = uid)) with
        | none => ApiResult.forbidden
        | some c => if c.id = inv.clientId then ApiResult.ok inv else ApiResult.forbidden
      else ApiResult.ok inv

/-- The GET /api/transactions/:id handler. -/
def getTransactionByIdRoute (role : Role) (uid : Nat) (id : Nat) (s : Store) :
    ApiResult Transaction :=
  match s.transactions.find? (fun x => decide (x.id = id)) with
  | none => ApiResult.notFound
  | some tx =>
      if role = Role.client then
        match s.clients.find? (fun x => decide (x.userId = uid)) with
        | none => ApiResult.forbidden
        | some c => if c.id = tx.clientId then ApiResult.ok tx else ApiResult.forbidden
      else ApiResult.ok tx

/-- The GET /api/licenses/:id handler: ownership of a license is
checked through its subscription's client; a dangling subscription
reference yields 404 inside the client branch. -/
def getLicenseByIdRoute (role : Role) (uid : Nat) (id : Nat) (s : Store) :
    ApiResult License :=
  match s.licenses.find? (fun x => decide (x.id = id)) with
  | none => ApiResult.notFound
  | some l =>
      if role = Role.client then
        match s.subscriptions.find? (fun x => decide (x.id = l.subscriptionId)) with
        | none => ApiResult.notFound
        | some sub =>
            match s.clients.find? (fun x => decide (x.userId = uid)) with
            | none => ApiResult.forbidden
            | some c => if c.id = sub.clientId then ApiResult.ok l else ApiResult.forbidden
      else ApiResult.ok l

/-- The branch of GET /api/subscriptions taken when no clientId query
parameter is given: a client-role caller gets their own client's
subscriptions, staff roles get the fallback empty list. -/
def subscriptionsForCaller (role : Role) (uid : Nat) (s : Store) :
    ApiResult (List Subscription) :=
  if role = Role.client then
    match s.clients.find? (fun x => decide (x.userId = uid)) with
    | none => ApiResult.forbidden
    | some c => ApiResult.ok (s.subscriptions.filter (fun x => decide (x.clientId = c.id)))
  else ApiResult.ok []

/-- The GET /api/subscriptions handler: a truthy clientId query
selects that client's subscriptions directly, with no check that the
caller owns that client. -/
def getSubscriptionsRoute (role : Role) (uid : Nat) (clientIdQ : Option Nat)
    (s : Store) : ApiResult (List Subscription) :=
  match clientIdQ with
  | some cid =>
      if cid = 0 then subscriptionsForCaller role uid s
      else ApiResult.ok (s.subscriptions.filter (fun x => decide (x.clientId = cid)))
  | none => subscriptionsForCaller role uid s

/-- A store with two clients where every scoped entity belongs to
client 2, while the caller under test (user 10) owns client 1. -/
def storeC5 : Store :=
  { clients := [{ id := 1, userId := 10, companyName := "Alpha" },
                { id := 2, userId := 20, companyName := "Beta" }]
    subscriptions := [{ id := 9, clientId := 2, productId := 1,
                        subscriptionType := SubscriptionType.yearly }]
    licenses := [{ id := 5, subscriptionId := 9, licenseKey := "LIC-DDDD-20240101",
                   status := LicenseStatus.active, activationDate := 0,
                   expirationDate := 400, notificationsSent := 0 }]
    invoices := [{ id := 3, clientId := 2, subscriptionId := some 9,
                   invoiceNumber := "INV-2026-00002", isPaid := false }]
    transactions := [{ id := 4, clientId := 2, invoiceId := some 3, amount := 10,
                       status := TransactionStatus.completed, transactionDate := 0 }]
    tickets := [] }

/-- The getClientCount method of DatabaseStorage. -/
def getClientCount (s : Store) : Nat :=
  s.clients.length

/-- The getActiveLicensesCount method of DatabaseStorage. -/
def getActiveLicensesCount (s : Store) : Nat :=
  (s.licenses.filter (fun l => decide (l.status = LicenseStatus.active))).length

/-- The getOpenTicketsCount method of DatabaseStorage: tickets whose
status is new or in progress. -/
def getOpenTicketsCount (s : Store) : Nat :=
  (s.tickets.filter (fun t =>
    decide (t.status = TicketStatus.new) || decide (t.status = TicketStatus.inProgress))).length

/-- The getMonthlyRevenue method of DatabaseStorage: the sum of the
amounts of completed transactions dated on or after the first day of
the current month (passed in as `monthStart`). -/
def getMonthlyRevenue (monthStart : Int) (s : Store) : Int :=
  ((s.transactions.filter (fun t =>
      decide (monthStart ≤ t.transactionDate) &&
      decide (t.status = TransactionStatus.completed))).map (fun t => t.amount)).sum

/-- Which of the four aggregate queries of GET /api/dashboard/stats
fail (throw) on this request. -/
structure StatsFailures where
  clientCount : Bool
  activeLicenses : Bool
  openTickets : Bool
  monthlyRevenue : Bool
deriving DecidableEq, Repr

/-- The JSON body of GET /api/dashboard/stats. -/
structure DashboardStats where
  totalClients : Nat
  activeSubscriptions : Nat
  openTickets : Nat
  monthlyRevenue : Int
deriving DecidableEq, Repr

/-- The GET /api/dashboard/stats handler: each statistic is fetched
inside its own try/catch, starting from a zero default, so a throwing
query leaves its own statistic at zero and the others untouched; the
handler performs no writes. -/
def dashboardStatsRoute (f : StatsFailures) (monthStart : Int) (s : Store) :
    ApiResult DashboardStats × Store :=
  let clientCount := if f.clientCount then 0 else getClientCount s
  let activeCount := if f.activeLicenses then 0 else getActiveLicensesCount s
  let openCount := if f.openTickets then 0 else getOpenTicketsCount s
  let revenue := if f.monthlyRevenue then 0 else getMonthlyRevenue monthStart s
  (ApiResult.ok
    { totalClients := clientCount
      activeSubscriptions := activeCount
      openTickets := openCount
      monthlyRevenue := revenue },
   s)

/-- A parsed subscription creation payload (the columns the
entitlement core reads). -/
structure SubscriptionInsert where
  clientId : Nat
  productId : Nat
  subscriptionType : SubscriptionType
deriving DecidableEq, Repr

/-- The row produced by inserting a subscription payload. -/
def subscriptionFromInsert (nid : Nat) (si : SubscriptionInsert) : Subscription :=
  { id := nid
    clientId := si.clientId
    productId := si.productId
    subscriptionType := si.subscriptionType }

/-- The POST /api/subscriptions handler: isSales gate, then insert. -/
def postSubscription (role : Role) (nid : Nat) (si : SubscriptionInsert) (s : Store) :
    ApiResult Subscription × Store :=
  if isSalesGate role = false then (ApiResult.forbidden, s)
  else
    let sub := subscriptionFromInsert nid si
    (ApiResult.ok sub, { s with subscriptions := s.subscriptions ++ [sub] })

/-- A parsed partial subscription payload. -/
structure SubscriptionPatch where
  clientId : Option Nat := none
  productId : Option Nat := none
  subscriptionType : Option SubscriptionType := none
deriving DecidableEq, Repr

/-- Effect of the drizzle set-with-spread call on one subscription
row. -/
def applySubPatch (p : SubscriptionPatch) (x : Subscription) : Subscription :=
  { x with
    clientId := p.clientId.getD x.clientId
    productId := p.productId.getD x.productId
    subscriptionType := p.subscriptionType.getD x.subscriptionType }

/-- The PATCH /api/subscriptions/:id handler. -/
def patchSubscription (role : Role) (id : Nat) (p : SubscriptionPatch) (s : Store) :
    ApiResult Subscription × Store :=
  if isSalesGate role = false then (ApiResult.forbidden, s)
  else
    match s.subscriptions.find? (fun x => decide (x.id = id)) with
    | none => (ApiResult.notFound, s)
    | some sub =>
        (ApiResult.ok (applySubPatch p sub),
          { s with subscriptions :=
              s.subscriptions.map (fun x => if x.id = id then applySubPatch p x else x) })

/-- A parsed license creation payload (insertLicenseSchema):
licenseKey is a required string column (the route generates one only
when the parsed string is falsy, i.e. empty); status and
notificationsSent have column defaults, so they are optional. -/
structure LicenseInsert where
  subscriptionId : Nat
  licenseKey : String
  status : Option LicenseStatus := none
  activationDate : Int
  expirationDate : Int
  notificationsSent : Option Nat := none
deriving DecidableEq, Repr

/-- The row produced by inserting a license payload: the serial id and
the column defaults (status active, notificationsSent zero) fill the
omitted fields. -/
def licenseFromInsert (nid : Nat) (key : String) (li : LicenseInsert) : License :=
  { id := nid
    subscriptionId := li.subscriptionId
    licenseKey := key
    status := li.status.getD LicenseStatus.active
    activationDate := li.activationDate
    expirationDate := li.expirationDate
    notificationsSent := li.notificationsSent.getD 0 }

/-- The POST /api/licenses handler: isSales gate; a falsy (empty)
licenseKey is replaced by a generated key; then insert. -/
def postLicense (role : Role) (nid : Nat) (uuid : String) (y m d : Nat)
    (li : LicenseInsert) (s : Store) : ApiResult License × Store :=
  if isSalesGate role = false then (ApiResult.forbidden, s)
  else
    let key := if li.licenseKey.isEmpty then generateLicenseKey uuid y m d
               else li.licenseKey
    let l := licenseFromInsert nid key li
    (ApiResult.ok l, { s with licenses := s.licenses ++ [l] })

/-- A creation payload supplying no status field, so the column
default applies. -/
def liDefault : LicenseInsert :=
  { subscriptionId := 1, licenseKey := "", activationDate := 0, expirationDate := 365 }

/-- Mapping an in-place row update over a list commutes with find?
when the update preserves the key the predicate tests. -/
theorem find_map_update {α : Type} (q : α → Prop) [DecidablePred q] (f : α → α)
    (hf : ∀ x, q x → q (f x)) :
    ∀ (l : List α) (a : α), l.find? (fun x => decide (q x)) = some a →
      (l.map (fun x => if q x then f x else x)).find? (fun x => decide (q x)) = some (f a) := by
  intro l
  induction l with
  | nil => intro a h; simp at h
  | cons b t ih =>
      intro a h
      by_cases hb : q b
      · rw [List.find?_cons_of_pos _ (by simpa using hb)] at h
        injection h with h
        subst h
        simp only [List.map_cons, if_pos hb]
        exact List.find?_cons_of_pos _ (by simpa using hf b hb)
      · rw [List.find?_cons_of_neg _ (by simpa using hb)] at h
        simp only [List.map_cons, if_neg hb]
        rw [List.find?_cons_of_neg _ (by simpa using hb)]
        exact ih a h

/-- C1 counterexample: in `storeRevoked`, license 7 is revoked, yet a
single sales-role PATCH of license 7 with status active succeeds and
the stored license's status becomes active — so revoked is not
terminal, contrary to the claim. -/
theorem revoked_escapes_by_patch :
    ((patchLicense Role.sales 7 (statusPatch LicenseStatus.active) storeRevoked).2.licenses.map
        (fun l => l.status)) = [LicenseStatus.active]
    ∧ (patchLicense Role.sales 7 (statusPatch LicenseStatus.active) storeRevoked).1 ≠
        ApiResult.forbidden := by
  constructor
  · rfl
  · decide

/-- C1 (amended): the PATCH /api/licenses/:id handler applies any
status in the payload unconditionally — for every store, any license,
in particular a revoked one, is moved to the requested status by a
single sales-role PATCH, both in the response body and in the stored
row; no transition rule protects revoked. -/
theorem patch_sets_any_status (s : Store) (id : Nat) (l : License)
    (v : LicenseStatus)
    (hfind : s.licenses.find? (fun x => decide (x.id = id)) = some l)
    (hrev : l.status = LicenseStatus.revoked) :
    (patchLicense Role.sales id (statusPatch v) s).1 =
      ApiResult.ok (applyPatch (statusPatch v) l)
    ∧ ((patchLicense Role.sales id (statusPatch v) s).2.licenses.find?
        (fun x => decide (x.id = id))) = some (applyPatch (statusPatch v) l)
    ∧ (applyPatch (statusPatch v) l).status = v := by
  have hupd := find_map_update (fun x : License => x.id = id)
    (applyPatch (statusPatch v)) (fun x hx => hx) s.licenses l hfind
  refine ⟨?_, ?_, rfl⟩
  · simp only [patchLicense, isSalesGate, updateLicense, hfind]
    rfl
  · simp only [patchLicense, isSalesGate, updateLicense, hfind]
    simpa using hupd

/-- Witness for the amended C1 theorem at the concrete store
`storeRevoked`. -/
theorem patch_sets_any_status_witness :
    (patchLicense Role.sales 7 (statusPatch LicenseStatus.pending) storeRevoked).1 =
      ApiResult.ok (applyPatch (statusPatch LicenseStatus.pending)
        { id := 7, subscriptionId := 1, licenseKey := "LIC-AAAA-20240101",
          status := LicenseStatus.revoked, activationDate := 0,
          expirationDate := 100, notificationsSent := 2 })
    ∧ ((patchLicense Role.sales 7 (statusPatch LicenseStatus.pending) storeRevoked).2.licenses.find?
        (fun x => decide (x.id = 7))) =
      some (applyPatch (statusPatch LicenseStatus.pending)
        { id := 7, subscriptionId := 1, licenseKey := "LIC-AAAA-20240101",
          status := LicenseStatus.revoked, activationDate := 0,
          expirationDate := 100, notificationsSent := 2 })
    ∧ (applyPatch (statusPatch LicenseStatus.pending)
        { id := 7, subscriptionId := 1, licenseKey := "LIC-AAAA-20240101",
          status := LicenseStatus.revoked, activationDate := 0,
          expirationDate := 100, notificationsSent := 2 }).status = LicenseStatus.pending :=
  patch_sets_any_status storeRevoked 7 _ LicenseStatus.pending (by rfl) (by rfl)

/-- C3 (amended): a license is in the result of getExpiringLicenses
with threshold n iff it is stored, its status is active and its
expiration lies strictly less than n days in the future — with no
lower bound, so licenses whose expiration date already passed are
still included; non-active licenses are excluded regardless of their
dates. -/
theorem getExpiringLicenses_mem (now n : Int) (s : Store) (l : License) :
    l ∈ getExpiringLicenses now n s ↔
      l ∈ s.licenses ∧ l.status = LicenseStatus.active ∧ daysUntilExpiration now l < n := by
  simp only [getExpiringLicenses, List.mem_filter, Bool.and_eq_true, decide_eq_true_eq,
    daysUntilExpiration]
  constructor
  · rintro ⟨hm, hs, hlt⟩
    exact ⟨hm, hs, by omega⟩
  · rintro ⟨hm, hs, hlt⟩
    exact ⟨hm, hs, by omega⟩

/-- C3 counterexample: at time 20 with threshold 14, the active
license `licPast` (expiration 10, ten days in the past) is returned by
getExpiringLicenses although its days-until-expiration value is
negative — the claimed lower bound of zero does not hold. -/
theorem expired_license_included :
    licPast ∈ getExpiringLicenses 20 14 storePast
    ∧ licPast.status = LicenseStatus.active
    ∧ ¬ (0 ≤ daysUntilExpiration 20 licPast) := by
  decide

/-- C9: getExpiringLicenses and the dashboard route built on it are
pure queries — for every store and threshold the store after the call
is exactly the store before it, so no license field is modified. -/
theorem getExpiringLicenses_pure (now n : Int) (s : Store) :
    (getExpiringLicensesOp now n s).2 = s ∧ (expiringLicensesRoute now s).2 = s :=
  ⟨rfl, rfl⟩

/-- C4 counterexample: patching the revoked license 7 with a new
expiration date succeeds (the result is ok, with no
InvalidTransition-style rejection) and changes the stored field; and
patching the active license 8 with an earlier expiration date also
succeeds, so the expiration is not advanced by the subscription's
billing period and notificationsSent is not reset. -/
theorem renewal_rules_absent :
    ((patchLicense Role.sales 7 { expirationDate := some 200 } storeTwoLicenses).2.licenses.map
        (fun l => (l.status, l.expirationDate, l.notificationsSent))) =
      [(LicenseStatus.revoked, (200 : Int), 2), (LicenseStatus.active, (100 : Int), 5)]
    ∧ ((patchLicense Role.sales 8 { expirationDate := some 50 } storeTwoLicenses).2.licenses.map
        (fun l => (l.status, l.expirationDate, l.notificationsSent))) =
      [(LicenseStatus.revoked, (100 : Int), 2), (LicenseStatus.active, (50 : Int), 5)] := by
  exact ⟨rfl, rfl⟩

/-- C4 (amended): the server has no dedicated renewal transition; the
only license mutation, PATCH /api/licenses/:id by a sales caller,
applies exactly the caller-supplied fields to the stored license
whatever its status — the new expiration date is whatever the payload
carries (not the subscription's billing period) and notificationsSent
changes only if the payload sets it; no status value is rejected. -/
theorem patch_applies_payload_verbatim (s : Store) (id : Nat) (l : License)
    (p : LicensePatch)
    (hfind : s.licenses.find? (fun x => decide (x.id = id)) = some l) :
    (patchLicense Role.sales id p s).1 = ApiResult.ok (applyPatch p l)
    ∧ (applyPatch p l).expirationDate = p.expirationDate.getD l.expirationDate
    ∧ (applyPatch p l).notificationsSent = p.notificationsSent.getD l.notificationsSent := by
  refine ⟨?_, rfl, rfl⟩
  simp only [patchLicense, isSalesGate, updateLicense, hfind]
  rfl

/-- Witness for the amended C4 theorem: patching the revoked license
of `storeTwoLicenses` with a new expiration date yields ok with
exactly the patched row. -/
theorem patch_applies_payload_verbatim_witness :
    (patchLicense Role.sales 7 { expirationDate := some 200 } storeTwoLicenses).1 =
      ApiResult.ok (applyPatch { expirationDate := some 200 }
        { id := 7, subscriptionId := 1, licenseKey := "LIC-AAAA-20240101",
          status := LicenseStatus.revoked, activationDate := 0,
          expirationDate := 100, notificationsSent := 2 })
    ∧ (applyPatch ({ expirationDate := some 200 } : LicensePatch)
        { id := 7, subscriptionId := 1, licenseKey := "LIC-AAAA-20240101",
          status := LicenseStatus.revoked, activationDate := 0,
          expirationDate := 100, notificationsSent := 2 }).expirationDate =
        (some (200 : Int)).getD 100
    ∧ (applyPatch ({ expirationDate := some 200 } : LicensePatch)
        { id := 7, subscriptionId := 1, licenseKey := "LIC-AAAA-20240101",
          status := LicenseStatus.revoked, activationDate := 0,
          expirationDate := 100, notificationsSent := 2 }).notificationsSent =
        (none : Option Nat).getD 2 :=
  patch_applies_payload_verbatim storeTwoLicenses 7 _ _ (by rfl)

/-- C7 counterexample: a key generated from a concrete UUID is 29
characters long, so no decomposition of it can carry a token of 32 or
more characters — the generated token has 16 hexadecimal characters
(64 bits), not the claimed at-least-128 bits. -/
theorem license_key_entropy_too_small :
    ¬ specLicenseKeyForm
        (generateLicenseKey "9b1deb4d-3b7d-4bad-9bdd-2b0d7b3dcb6d" 2026 10 11)
        2026 10 11 := by
  rintro ⟨t, heq, hlen⟩
  have h1 := congrArg String.length heq
  have h2 : (generateLicenseKey "9b1deb4d-3b7d-4bad-9bdd-2b0d7b3dcb6d" 2026 10 11).length = 29 := by
    rfl
  rw [h2] at h1
  simp only [String.length_append] at h1
  have h3 : ("LIC".length) = 3 := rfl
  have h4 : ("-".length) = 1 := rfl
  have h5 : (dateStamp 2026 10 11).length = 8 := rfl
  rw [h3, h4, h5] at h1
  omega

/-- C7 (amended): every generated key has the form
LIC-TOKEN-YYYYMMDD, where TOKEN is the first 16 characters of the
dash-stripped UUID uppercased — hence at most 16 characters, i.e. at
most 64 bits of randomness rather than the claimed 128. -/
theorem generateLicenseKey_format (uuid : String) (y m d : Nat) :
    generateLicenseKey uuid y m d =
      "LIC" ++ "-" ++ licenseToken uuid ++ "-" ++ dateStamp y m d
    ∧ (licenseToken uuid).length ≤ 16 := by
  refine ⟨rfl, ?_⟩
  show (((uuid.data.filter (fun c => decide (c ≠ '-'))).take 16).map Char.toUpper).length ≤ 16
  rw [List.length_map, List.length_take]
  exact min_le_left _ _

/-- C2 counterexample: when the invoice update throws after the
transaction insert, the response is 500 but the post-state still holds
the inserted transaction while the invoice remains unpaid — the writes
are not atomic; the insert is not rolled back. -/
theorem transaction_insert_not_rolled_back :
    ((postTransaction Role.sales 42 500
        { clientId := 1, invoiceId := some 1, amount := 50,
          status := some TransactionStatus.failed } true storeInvoice).2.transactions.map
        (fun t => t.id)) = [42]
    ∧ ((postTransaction Role.sales 42 500
        { clientId := 1, invoiceId := some 1, amount := 50,
          status := some TransactionStatus.failed } true storeInvoice).2.invoices.map
        (fun i => i.isPaid)) = [false]
    ∧ (postTransaction Role.sales 42 500
        { clientId := 1, invoiceId := some 1, amount := 50,
          status := some TransactionStatus.failed } true storeInvoice).1 =
        ApiResult.serverError :=
  ⟨rfl, rfl, rfl⟩

/-- C2 (amended): creating a transaction with a non-null invoiceId
marks the referenced invoice paid immediately — for every transaction
status value, including failed and pending — via a second write issued
after the insert; the two writes are sequential, not atomic: if the
invoice update fails, the inserted transaction remains and the invoice
is left untouched. -/
theorem transaction_marks_invoice_paid (s : Store) (nid : Nat) (now : Int)
    (t : TxInsert) (iid : Nat) (inv : Invoice)
    (hiid : t.invoiceId = some iid) (hnz : iid ≠ 0)
    (hfind : s.invoices.find? (fun x => decide (x.id = iid)) = some inv) :
    ((postTransaction Role.sales nid now t false s).2.invoices.find?
        (fun x => decide (x.id = iid))) = some (setPaid inv)
    ∧ (setPaid inv).isPaid = true
    ∧ (postTransaction Role.sales nid now t false s).1 =
        ApiResult.ok (transactionFromInsert nid now t)
    ∧ (postTransaction Role.sales nid now t true s).2.invoices = s.invoices
    ∧ (postTransaction Role.sales nid now t true s).2.transactions =
        s.transactions ++ [transactionFromInsert nid now t] := by
  have hupd := find_map_update (fun x : Invoice => x.id = iid) setPaid
    (fun x hx => hx) s.invoices inv hfind
  refine ⟨?_, rfl, ?_, ?_, ?_⟩ <;>
    simp only [postTransaction, isSalesGate, hiid, updateInvoicePaid, hfind, if_neg hnz,
      Bool.false_eq_true, if_false, decide_True, decide_False, Bool.or_self]
  · simpa using hupd
  · rfl
  · rfl
  · rfl

/-- Witness for the amended C2 theorem at the concrete store
`storeInvoice`, with a failed transaction referencing invoice 1. -/
theorem transaction_marks_invoice_paid_witness :
    ((postTransaction Role.sales 42 500
        { clientId := 1, invoiceId := some 1, amount := 50,
          status := some TransactionStatus.failed } false storeInvoice).2.invoices.find?
        (fun x => decide (x.id = 1))) =
      some (setPaid { id := 1, clientId := 1, subscriptionId := none,
                      invoiceNumber := "INV-2026-00001", isPaid := false })
    ∧ (setPaid { id := 1, clientId := 1, subscriptionId := none,
                 invoiceNumber := "INV-2026-00001", isPaid := false }).isPaid = true
    ∧ (postTransaction Role.sales 42 500
        { clientId := 1, invoiceId := some 1, amount := 50,
          status := some TransactionStatus.failed } false storeInvoice).1 =
        ApiResult.ok (transactionFromInsert 42 500
          { clientId := 1, invoiceId := some 1, amount := 50,
            status := some TransactionStatus.failed })
    ∧ (postTransaction Role.sales 42 500
        { clientId := 1, invoiceId := some 1, amount := 50,
          status := some TransactionStatus.failed } true storeInvoice).2.invoices =
        storeInvoice.invoices
    ∧ (postTransaction Role.sales 42 500
        { clientId := 1, invoiceId := some 1, amount := 50,
          status := some TransactionStatus.failed } true storeInvoice).2.transactions =
        storeInvoice.transactions ++ [transactionFromInsert 42 500
          { clientId := 1, invoiceId := some 1, amount := 50,
            status := some TransactionStatus.failed }] :=
  transaction_marks_invoice_paid storeInvoice 42 500 _ 1 _ (by rfl) (by decide) (by rfl)

/-- C5 counterexample: the caller owning client 1, with role client,
requests the subscription list for client 2 via the clientId query and
receives client 2's subscription bodies — not a Forbidden result. -/
theorem client_reads_other_clients_subscriptions :
    getSubscriptionsRoute Role.client 10 (some 2) storeC5 =
      ApiResult.ok [{ id := 9, clientId := 2, productId := 1,
                      subscriptionType := SubscriptionType.yearly }]
    ∧ getSubscriptionsRoute Role.client 10 (some 2) storeC5 ≠
        (ApiResult.forbidden : ApiResult (List Subscription)) := by
  refine ⟨rfl, ?_⟩
  intro h
  simp [getSubscriptionsRoute, storeC5] at h

/-- C5 (amended): the by-id reads of a subscription, invoice,
transaction or license do answer Forbidden — never NotFound, never the
body — to a client-role caller whose client record does not own the
resource (for a license, given its owning subscription exists); but
the collection reads with an explicit nonzero clientId query return
the resources of that client to any authenticated caller without an
ownership check, as the counterexample shows. -/
theorem client_byid_reads_forbidden (s : Store) (uid : Nat) (c : Client)
    (hc : s.clients.find? (fun x => decide (x.userId = uid)) = some c) :
    (∀ id sub, s.subscriptions.find? (fun x => decide (x.id = id)) = some sub →
       c.id ≠ sub.clientId →
       getSubscriptionByIdRoute Role.client uid id s = ApiResult.forbidden)
    ∧ (∀ id inv, s.invoices.find? (fun x => decide (x.id = id)) = some inv →
       c.id ≠ inv.clientId →
       getInvoiceByIdRoute Role.client uid id s = ApiResult.forbidden)
    ∧ (∀ id tx, s.transactions.find? (fun x => decide (x.id = id)) = some tx →
       c.id ≠ tx.clientId →
       getTransactionByIdRoute Role.client uid id s = ApiResult.forbidden)
    ∧ (∀ id l sub, s.licenses.find? (fun x => decide (x.id = id)) = some l →
       s.subscriptions.find? (fun x => decide (x.id = l.subscriptionId)) = some sub →
       c.id ≠ sub.clientId →
       getLicenseByIdRoute Role.client uid id s = ApiResult.forbidden) := by
  refine ⟨?_, ?_, ?_, ?_⟩
  · intro id sub hs hne
    simp [getSubscriptionByIdRoute, hs, hc, hne]
  · intro id inv hs hne
    simp [getInvoiceByIdRoute, hs, hc, hne]
  · intro id tx hs hne
    simp [getTransactionByIdRoute, hs, hc, hne]
  · intro id l sub hl hs hne
    simp [getLicenseByIdRoute, hl, hs, hc, hne]

/-- Witness for the amended C5 theorem at the concrete store
`storeC5`, where user 10 owns client 1 and every resource belongs to
client 2. -/
theorem client_byid_reads_forbidden_witness :
    getSubscriptionByIdRoute Role.client 10 9 storeC5 = ApiResult.forbidden
    ∧ getInvoiceByIdRoute Role.client 10 3 storeC5 = ApiResult.forbidden
    ∧ getTransactionByIdRoute Role.client 10 4 storeC5 = ApiResult.forbidden
    ∧ getLicenseByIdRoute Role.client 10 5 storeC5 = ApiResult.forbidden := by
  have h := client_byid_reads_forbidden storeC5 10
    { id := 1, userId := 10, companyName := "Alpha" } (by rfl)
  exact ⟨h.1 9 _ (by rfl) (by decide), h.2.1 3 _ (by rfl) (by decide),
    h.2.2.1 4 _ (by rfl) (by decide), h.2.2.2 5 _ _ (by rfl) (by rfl) (by decide)⟩

/-- C6: for every combination of aggregate-query failures the stats
route still answers with a full ok body and an unchanged store; a
failed aggregate reads as zero while each surviving aggregate is the
value of its own query — exhibited both for an arbitrary failure
pattern and for the single-failure pattern in which only the client
count is lost, and for the all-failures pattern. -/
theorem dashboard_stats_resilient (f : StatsFailures) (m : Int) (s : Store) :
    dashboardStatsRoute f m s =
      (ApiResult.ok
        { totalClients := if f.clientCount then 0 else getClientCount s
          activeSubscriptions := if f.activeLicenses then 0 else getActiveLicensesCount s
          openTickets := if f.openTickets then 0 else getOpenTicketsCount s
          monthlyRevenue := if f.monthlyRevenue then 0 else getMonthlyRevenue m s },
       s)
    ∧ dashboardStatsRoute
        { clientCount := true, activeLicenses := false,
          openTickets := false, monthlyRevenue := false } m s =
      (ApiResult.ok
        { totalClients := 0
          activeSubscriptions := getActiveLicensesCount s
          openTickets := getOpenTicketsCount s
          monthlyRevenue := getMonthlyRevenue m s },
       s)
    ∧ dashboardStatsRoute
        { clientCount := true, activeLicenses := true,
          openTickets := true, monthlyRevenue := true } m s =
      (ApiResult.ok
        { totalClients := 0, activeSubscriptions := 0,
          openTickets := 0, monthlyRevenue := 0 },
       s) :=
  ⟨rfl, rfl, rfl⟩

/-- C8: every entitlement-mutating route is behind the isSales gate —
a caller whose role is neither sales nor admin gets Forbidden and the
store is returned untouched by license creation and patching,
subscription creation and patching, and transaction creation; and the
gate itself admits exactly the sales and admin roles. -/
theorem mutating_routes_require_sales (role : Role) (s : Store)
    (id nid : Nat) (p : LicensePatch) (sp : SubscriptionPatch)
    (li : LicenseInsert) (si : SubscriptionInsert) (t : TxInsert)
    (uuid : String) (y m d : Nat) (now : Int) (b : Bool)
    (h : role ≠ Role.sales ∧ role ≠ Role.admin) :
    patchLicense role id p s = (ApiResult.forbidden, s)
    ∧ postLicense role nid uuid y m d li s = (ApiResult.forbidden, s)
    ∧ postSubscription role nid si s = (ApiResult.forbidden, s)
    ∧ patchSubscription role id sp s = (ApiResult.forbidden, s)
    ∧ postTransaction role nid now t b s = (ApiResult.forbidden, s)
    ∧ isSalesGate Role.sales = true
    ∧ isSalesGate Role.admin = true := by
  have hg : isSalesGate role = false := by
    cases role <;> simp_all [isSalesGate]
  refine ⟨?_, ?_, ?_, ?_, ?_, rfl, rfl⟩ <;>
    simp [patchLicense, postLicense, postSubscription, patchSubscription,
      postTransaction, hg]

/-- Witness for C8 at role client with concrete requests against
`storeC5`. -/
theorem mutating_routes_require_sales_witness :
    patchLicense Role.client 5 (statusPatch LicenseStatus.expired) storeC5 =
      (ApiResult.forbidden, storeC5)
    ∧ postLicense Role.client 11 "9b1deb4d-3b7d-4bad-9bdd-2b0d7b3dcb6d" 2026 10 11
        { subscriptionId := 9, licenseKey := "", activationDate := 0,
          expirationDate := 365 } storeC5 = (ApiResult.forbidden, storeC5)
    ∧ postSubscription Role.client 12
        { clientId := 1, productId := 1,
          subscriptionType := SubscriptionType.monthly } storeC5 =
        (ApiResult.forbidden, storeC5)
    ∧ patchSubscription Role.client 9
        { subscriptionType := some SubscriptionType.yearly } storeC5 =
        (ApiResult.forbidden, storeC5)
    ∧ postTransaction Role.client 13 500
        { clientId := 1, invoiceId := some 3, amount := 10 } false storeC5 =
        (ApiResult.forbidden, storeC5)
    ∧ isSalesGate Role.sales = true
    ∧ isSalesGate Role.admin = true :=
  mutating_routes_require_sales Role.client storeC5 5 11
    (statusPatch LicenseStatus.expired)
    { subscriptionType := some SubscriptionType.yearly }
    { subscriptionId := 9, licenseKey := "", activationDate := 0, expirationDate := 365 }
    { clientId := 1, productId := 1, subscriptionType := SubscriptionType.monthly }
    { clientId := 1, invoiceId := some 3, amount := 10 }
    "9b1deb4d-3b7d-4bad-9bdd-2b0d7b3dcb6d" 2026 10 11 500 false
    ⟨by decide, by decide⟩

/-- C10: a license-creation request that supplies no status field
creates the license with the schema default status active — never
pending — and the create path performs a plain insert, not a
pending-to-active transition. -/
theorem create_license_defaults_active (nid : Nat) (uuid : String) (y m d : Nat)
    (li : LicenseInsert) (s : Store) (h : li.status = none) :
    (postLicense Role.sales nid uuid y m d li s).1 =
      ApiResult.ok (licenseFromInsert nid
        (if li.licenseKey.isEmpty then generateLicenseKey uuid y m d
         else li.licenseKey) li)
    ∧ (licenseFromInsert nid
        (if li.licenseKey.isEmpty then generateLicenseKey uuid y m d
         else li.licenseKey) li).status = LicenseStatus.active
    ∧ (licenseFromInsert nid
        (if li.licenseKey.isEmpty then generateLicenseKey uuid y m d
         else li.licenseKey) li).status ≠ LicenseStatus.pending := by
  refine ⟨rfl, ?_, ?_⟩
  · simp [licenseFromInsert, h]
  · simp [licenseFromInsert, h]

/-- Witness for C10 at the concrete payload `liDefault` against
`storePast`. -/
theorem create_license_defaults_active_witness :
    (postLicense Role.sales 11 "9b1deb4d-3b7d-4bad-9bdd-2b0d7b3dcb6d" 2026 10 11
        liDefault storePast).1 =
      ApiResult.ok (licenseFromInsert 11
        (if liDefault.licenseKey.isEmpty
         then generateLicenseKey "9b1deb4d-3b7d-4bad-9bdd-2b0d7b3dcb6d" 2026 10 11
         else liDefault.licenseKey) liDefault)
    ∧ (licenseFromInsert 11
        (if liDefault.licenseKey.isEmpty
         then generateLicenseKey "9b1deb4d-3b7d-4bad-9bdd-2b0d7b3dcb6d" 2026 10 11
         else liDefault.licenseKey) liDefault).status = LicenseStatus.active
    ∧ (licenseFromInsert 11
        (if liDefault.licenseKey.isEmpty
         then generateLicenseKey "9b1deb4d-3b7d-4bad-9bdd-2b0d7b3dcb6d" 2026 10 11
         else liDefault.licenseKey) liDefault).status ≠ LicenseStatus.pending :=
  create_license_defaults_active 11 "9b1deb4d-3b7d-4bad-9bdd-2b0d7b3dcb6d" 2026 10 11
    liDefault storePast (by rfl)

end SSM
